import Mathlib

/-!
Shallow embedding of the RF Audio Monitor client (frontend React app) and the
channel-isolator audio worklet, used to check the specification's claims.

The client lifecycle controller lives in the App component
(src/frontend/src/components/ChannelSelector.jsx, latest revision): the
socket "warning" handler, handleAddDevice, handlePlayPause, handleRemoveDevice
and the socket-effect cleanup.  React state updates are modelled as pure
functions on an explicit ClientState; browser timers are modelled as an
explicit list of pending Timer records plus a counter allocating fresh ids
(browser timeout ids are positive integers, never the JS-falsy 0); outbound
socket emissions and released native audio handles are modelled as
append-only logs.
-/

namespace RFMonitor

/-- An entry of the device list fetched from the enumeration endpoint. -/
structure AudioDevice where
  index : Nat
  name : String
  deviceId : String
  channels : Nat
deriving DecidableEq

/-- One element of the activeDevices React state (a monitored device session),
with the fields handleAddDevice creates; audio-graph handles are ids of
native objects (none = null/absent). -/
structure Session where
  id : String
  device : AudioDevice
  channel : Nat
  customName : String
  isPlaying : Bool
  stream : Option Nat
  source : Option Nat
  channelIsolator : Option Nat
  gainNode : Option Nat
  hasWarning : Bool
  warningTimeout : Option Nat
deriving DecidableEq

/-- A pending setTimeout callback scheduled by the warning handler; it will
clear the warning of the session whose id it captured, fireAt = schedule
time + 5000 ms. -/
structure Timer where
  id : Nat
  sessionId : String
  fireAt : Nat
deriving DecidableEq

/-- Outbound socket.emit commands issued by the client. -/
inductive Command where
  | startAudio (deviceId : String) (deviceIndex : Nat) (channel : Nat)
  | stopAudio (deviceId : String) (deviceIndex : Nat) (channel : Nat)
deriving DecidableEq

/-- Payload of a socket "warning" event; a missing field is none (undefined
in JS).  The handler compares the payload deviceIndex against the stringified
stored index, so that field is carried as a string. -/
structure WarningData where
  deviceIndex : Option String
  channel : Option Nat
  message : Option String
deriving DecidableEq

/-- The whole client-side state relevant to the claims: the activeDevices
list, the pending warning-clear timers, a fresh timer-id allocator, and the
logs of emitted socket commands and released native audio handles, plus the
selection inputs feeding handleAddDevice. -/
structure ClientState where
  sessions : List Session
  timers : List Timer
  nextTimerId : Nat
  emitted : List Command
  released : List Nat
  selectedDevice : Option AudioDevice
  selectedChannel : Option Nat
  customName : String
deriving DecidableEq

/-- The warning handler's match test on one session:
device.device.index.toString() === deviceIndex && device.channel === channel. -/
def matchesWarning (di : String) (ch : Nat) (d : Session) : Bool :=
  (toString d.device.index == di) && (d.channel == ch)

/-- clearTimeout(tid): drop the pending timer with that id. -/
def clearTimeoutId (tid : Nat) (timers : List Timer) : List Timer :=
  timers.filter fun t => t.id ≠ tid

/-- The guarded clear in the handler: if (device.warningTimeout)
clearTimeout(device.warningTimeout). -/
def clearOpt (o : Option Nat) (timers : List Timer) : List Timer :=
  match o with
  | some tid => clearTimeoutId tid timers
  | none => timers

/-- The body of setActiveDevices(prevDevices => prevDevices.map(...)) in the
warning handler, threading the timer side effects (clearTimeout, setTimeout)
of each callback invocation in list order.  On a match the session gets
hasWarning := true and a fresh timer id; the scheduled timer will clear the
warning of the captured session id 5000 ms later. -/
def processWarn (di : String) (ch : Nat) (now : Nat) :
    List Session → List Timer → Nat → List Session × List Timer × Nat
  | [], timers, nid => ([], timers, nid)
  | d :: rest, timers, nid =>
    if matchesWarning di ch d then
      let timers1 := clearOpt d.warningTimeout timers ++ [⟨nid, d.id, now + 5000⟩]
      let r := processWarn di ch now rest timers1 (nid + 1)
      ({ d with hasWarning := true, warningTimeout := some nid } :: r.1, r.2)
    else
      let r := processWarn di ch now rest timers nid
      (d :: r.1, r.2)

/-- The socket.on("warning") handler: destructure the payload, return early
when deviceIndex or channel is undefined, otherwise update the session list
(and the pending timers) via processWarn. -/
def handleWarning (w : WarningData) (now : Nat) (st : ClientState) : ClientState :=
  match w.deviceIndex, w.channel with
  | some di, some ch =>
    let r := processWarn di ch now st.sessions st.timers st.nextTimerId
    { st with sessions := r.1, timers := r.2.1, nextTimerId := r.2.2 }
  | _, _ => st

/-- A pending warning-clear timer fires: it is removed from the pending set
and its callback maps over the current sessions, resetting hasWarning and
warningTimeout on the session whose id it captured. -/
def fireWarningClear (t : Timer) (st : ClientState) : ClientState :=
  { st with
    timers := st.timers.filter fun u => u.id ≠ t.id,
    sessions := st.sessions.map fun d =>
      if d.id = t.sessionId then { d with hasWarning := false, warningTimeout := none } else d }

/-- The newDevice object literal built by handleAddDevice (gid is the
Date.now()-generated id; customName falls back to the device name when the
input is empty, via JS ||). -/
def newSession (gid : String) (dev : AudioDevice) (ch : Nat) (customName : String) : Session :=
  { id := gid
    device := dev
    channel := ch
    customName := if customName = "" then dev.name else customName
    isPlaying := false
    stream := none
    source := none
    channelIsolator := none
    gainNode := none
    hasWarning := false
    warningTimeout := none }

/-- handleAddDevice: when a device and a channel are selected, emit
start_audio {deviceId, deviceIndex, channel}, append the new session and
reset the selection; otherwise do nothing. -/
def handleAddDevice (gid : String) (st : ClientState) : ClientState :=
  match st.selectedDevice, st.selectedChannel with
  | some dev, some ch =>
    { st with
      emitted := st.emitted ++ [Command.startAudio gid dev.index ch]
      sessions := st.sessions ++ [newSession gid dev ch st.customName]
      selectedDevice := none
      selectedChannel := none
      customName := "" }
  | _, _ => st

/-- Outcome of the try block of the play branch: getUserMedia plus node
creation either yields the four native handles or throws (err), in which
case the catch leaves the state unchanged. -/
inductive MediaResult where
  | ok (stream source channelIsolator gainNode : Nat)
  | err
deriving DecidableEq

/-- The native handles a session's audio graph owns, in the order the code
releases them: stream tracks stopped, then source, channelIsolator and
gainNode disconnected. -/
def releaseGraph (d : Session) : List Nat :=
  d.stream.toList ++ d.source.toList ++ d.channelIsolator.toList ++ d.gainNode.toList

/-- handlePlayPause: look the session up by id; if playing, release its audio
graph and null the handles; otherwise (worklet loaded and media acquisition
succeeding) store the new handles and set isPlaying. -/
def handlePlayPause (sid : String) (workletLoaded : Bool) (media : MediaResult)
    (st : ClientState) : ClientState :=
  match st.sessions.find? (fun x => x.id = sid) with
  | none => st
  | some d =>
    if d.isPlaying then
      { st with
        released := st.released ++ releaseGraph d
        sessions := st.sessions.map fun x =>
          if x.id = sid then
            { x with isPlaying := false, stream := none, source := none,
                     channelIsolator := none, gainNode := none }
          else x }
    else if workletLoaded then
      match media with
      | .ok s so ci g =>
        { st with
          sessions := st.sessions.map fun x =>
            if x.id = sid then
              { x with isPlaying := true, stream := some s, source := some so,
                       channelIsolator := some ci, gainNode := some g }
            else x }
      | .err => st
    else st

/-- handleRemoveDevice: look the session up by id; if found, release its
audio graph when playing, emit stop_audio {deviceId, deviceIndex, channel}
and filter the session out of the list.  (The code does not touch the
session's pending warning timer here.) -/
def handleRemoveDevice (sid : String) (st : ClientState) : ClientState :=
  match st.sessions.find? (fun x => x.id = sid) with
  | none => st
  | some d =>
    { st with
      released := st.released ++ (if d.isPlaying then releaseGraph d else [])
      emitted := st.emitted ++ [Command.stopAudio d.id d.device.index d.channel]
      sessions := st.sessions.filter fun x => x.id ≠ sid }

/-- One step of the unmount cleanup loop: if (device.warningTimeout)
clearTimeout(device.warningTimeout). -/
def cancelSessionTimer (timers : List Timer) (d : Session) : List Timer :=
  clearOpt d.warningTimeout timers

/-- The socket-effect cleanup on unmount: for every currently active session
(via activeDevicesRef) clear its pending warning timeout and emit stop_audio;
the component state then ceases to exist. -/
def teardown (st : ClientState) : ClientState :=
  { st with
    timers := st.sessions.foldl cancelSessionTimer st.timers
    emitted := st.emitted ++
      st.sessions.map fun d => Command.stopAudio d.id d.device.index d.channel
    sessions := [] }

/-- Well-formedness of the timer bookkeeping: every pending timer id and
every id stored in a session's warningTimeout is below the fresh-id counter
(true of every state reachable from the initial one, since setTimeout ids
come from the counter). -/
def ClientState.wf (st : ClientState) : Bool :=
  st.timers.all (fun t => t.id < st.nextTimerId) &&
  st.sessions.all (fun d =>
    match d.warningTimeout with
    | some tid => tid < st.nextTimerId
    | none => true)

/-- Projection of every Session field except isPlaying and the audio-graph
handles (the fields play/pause is allowed to mutate). -/
def dropListen (d : Session) :
    String × AudioDevice × Nat × String × Bool × Option Nat :=
  (d.id, d.device, d.channel, d.customName, d.hasWarning, d.warningTimeout)

/-- Projection of every Session field except hasWarning and warningTimeout
(the fields the warning logic is allowed to mutate). -/
def dropWarn (d : Session) :
    String × AudioDevice × Nat × String × Bool ×
      Option Nat × Option Nat × Option Nat × Option Nat :=
  (d.id, d.device, d.channel, d.customName, d.isPlaying,
    d.stream, d.source, d.channelIsolator, d.gainNode)

/-- TypedArray.prototype.set at offset 0: throws (none) when the source is
longer than the destination, otherwise overwrites the first src.length
elements of dst. -/
def typedArraySet (dst src : List Int) : Option (List Int) :=
  if dst.length < src.length then none
  else some (src ++ dst.drop src.length)

/-- The worklet's write loop: for every output channel,
output[channel].set(targetChannelData). -/
def setAll (chans : List (List Int)) (src : List Int) : Option (List (List Int)) :=
  match chans with
  | [] => some []
  | c :: rest =>
    match typedArraySet c src, setAll rest src with
    | some c2, some rest2 => some (c2 :: rest2)
    | _, _ => none

/-- ChannelIsolatorProcessor.process (public/channelIsolatorWorklet.js):
input = inputs[0], output = outputs[0]; return true immediately when input is
undefined or has no channels; when input[targetChannel] is undefined, write
nothing and return true; otherwise copy the target channel's samples onto
every output channel and return true.  none models a thrown exception
(undefined output or a TypedArray.set range error). -/
def isolatorProcess (targetChannel : Nat) (inputs outputs : List (List (List Int))) :
    Option (List (List (List Int)) × Bool) :=
  match inputs.head? with
  | none => some (outputs, true)
  | some input =>
    if input.length = 0 then some (outputs, true)
    else
      match input[targetChannel]? with
      | none => some (outputs, true)
      | some targetChannelData =>
        match outputs with
        | [] => none
        | output :: rest =>
          match setAll output targetChannelData with
          | none => none
          | some output2 => some (output2 :: rest, true)

/-! ### Basic lemmas about the warning handler -/

theorem processWarn_length (di : String) (ch : Nat) (now : Nat) (l : List Session) :
    ∀ (timers : List Timer) (nid : Nat),
      (processWarn di ch now l timers nid).1.length = l.length := by
  induction l with
  | nil => intro timers nid; simp [processWarn]
  | cons d rest ih =>
    intro timers nid
    by_cases h : matchesWarning di ch d = true
    · simp [processWarn, h, ih]
    · simp [processWarn, h, ih]

theorem processWarn_hasWarning (di : String) (ch : Nat) (now : Nat) (l : List Session) :
    ∀ (timers : List Timer) (nid i : Nat),
      ((processWarn di ch now l timers nid).1[i]?).map Session.hasWarning =
        (l[i]?).map (fun d => if matchesWarning di ch d then true else d.hasWarning) := by
  induction l with
  | nil => intro timers nid i; simp [processWarn]
  | cons d rest ih =>
    intro timers nid i
    by_cases h : matchesWarning di ch d = true
    · cases i with
      | zero => simp [processWarn, h]
      | succ j => simp [processWarn, h, ih]
    · cases i with
      | zero => simp [processWarn, h]
      | succ j => simp [processWarn, h, ih]

theorem processWarn_dropWarn (di : String) (ch : Nat) (now : Nat) (l : List Session) :
    ∀ (timers : List Timer) (nid i : Nat),
      ((processWarn di ch now l timers nid).1[i]?).map dropWarn =
        (l[i]?).map dropWarn := by
  induction l with
  | nil => intro timers nid i; simp [processWarn]
  | cons d rest ih =>
    intro timers nid i
    by_cases h : matchesWarning di ch d = true
    · cases i with
      | zero => simp [processWarn, h, dropWarn]
      | succ j => simp [processWarn, h, ih]
    · cases i with
      | zero => simp [processWarn, h]
      | succ j => simp [processWarn, h, ih]

theorem processWarn_no_match (di : String) (ch : Nat) (now : Nat) (l : List Session)
    (timers : List Timer) (nid : Nat)
    (h : ∀ d ∈ l, matchesWarning di ch d = false) :
    processWarn di ch now l timers nid = (l, timers, nid) := by
  induction l generalizing timers nid with
  | nil => simp [processWarn]
  | cons d rest ih =>
    have hd : matchesWarning di ch d = false := h d (List.mem_cons_self d rest)
    have hrest : ∀ d' ∈ rest, matchesWarning di ch d' = false :=
      fun d' hm => h d' (List.mem_cons_of_mem d hm)
    have hr := ih timers nid hrest
    simp [processWarn, hd, hr]

/-! ### Timer bookkeeping lemmas for the warning handler -/

theorem processWarn_cons_pos (di : String) (ch : Nat) (now : Nat) (d : Session)
    (rest : List Session) (timers : List Timer) (nid : Nat)
    (h : matchesWarning di ch d = true) :
    processWarn di ch now (d :: rest) timers nid =
      ({ d with hasWarning := true, warningTimeout := some nid } ::
          (processWarn di ch now rest
            (clearOpt d.warningTimeout timers ++ [⟨nid, d.id, now + 5000⟩]) (nid + 1)).1,
        (processWarn di ch now rest
          (clearOpt d.warningTimeout timers ++ [⟨nid, d.id, now + 5000⟩]) (nid + 1)).2) := by
  simp [processWarn, h]

theorem processWarn_cons_neg (di : String) (ch : Nat) (now : Nat) (d : Session)
    (rest : List Session) (timers : List Timer) (nid : Nat)
    (h : matchesWarning di ch d = false) :
    processWarn di ch now (d :: rest) timers nid =
      (d :: (processWarn di ch now rest timers nid).1,
        (processWarn di ch now rest timers nid).2) := by
  simp [processWarn, h]

theorem clearOpt_subset (o : Option Nat) (timers : List Timer) :
    ∀ t ∈ clearOpt o timers, t ∈ timers := by
  intro t ht
  cases o with
  | none => exact ht
  | some tid =>
    simp only [clearOpt, clearTimeoutId] at ht
    exact (List.mem_filter.1 ht).1

theorem mem_clearOpt (o : Option Nat) (timers : List Timer) (t : Timer)
    (ht : t ∈ timers) (hne : ∀ tid0, o = some tid0 → t.id ≠ tid0) :
    t ∈ clearOpt o timers := by
  cases o with
  | none => exact ht
  | some tid =>
    simp only [clearOpt, clearTimeoutId]
    exact List.mem_filter.2 ⟨ht, by simpa using hne tid rfl⟩

theorem clearTimeoutId_no_id (tid : Nat) (timers : List Timer) :
    ∀ t ∈ clearTimeoutId tid timers, t.id ≠ tid := by
  intro t ht
  simp only [clearTimeoutId] at ht
  simpa using (List.mem_filter.1 ht).2

/-- A pending timer survives the warning handler as long as no session's
stored warningTimeout carries its id. -/
theorem processWarn_timers_mem (di : String) (ch : Nat) (now : Nat) (l : List Session) :
    ∀ (timers : List Timer) (nid : Nat) (t : Timer),
      t ∈ timers →
      (∀ d ∈ l, ∀ tid0, d.warningTimeout = some tid0 → t.id ≠ tid0) →
      t ∈ (processWarn di ch now l timers nid).2.1 := by
  induction l with
  | nil => intro timers nid t ht _; simpa [processWarn] using ht
  | cons d rest ih =>
    intro timers nid t ht hno
    cases h : matchesWarning di ch d with
    | true =>
      rw [processWarn_cons_pos di ch now d rest timers nid h]
      refine ih _ _ t ?_ fun d' hd' => hno d' (List.mem_cons_of_mem d hd')
      exact List.mem_append_left _
        (mem_clearOpt d.warningTimeout timers t ht (hno d (List.mem_cons_self d rest)))
    | false =>
      rw [processWarn_cons_neg di ch now d rest timers nid h]
      exact ih timers nid t ht fun d' hd' => hno d' (List.mem_cons_of_mem d hd')

/-- If no pending timer carries a given stale id (below the allocator), none
does after the warning handler runs either. -/
theorem processWarn_timers_no_id (di : String) (ch : Nat) (now : Nat) (l : List Session) :
    ∀ (timers : List Timer) (nid tid0 : Nat),
      tid0 < nid →
      (∀ t ∈ timers, t.id ≠ tid0) →
      ∀ t ∈ (processWarn di ch now l timers nid).2.1, t.id ≠ tid0 := by
  induction l with
  | nil =>
    intro timers nid tid0 _ hno t htm
    simp only [processWarn] at htm
    exact hno t htm
  | cons d rest ih =>
    intro timers nid tid0 hlt hno t htm
    cases h : matchesWarning di ch d with
    | true =>
      rw [processWarn_cons_pos di ch now d rest timers nid h] at htm
      refine ih _ _ tid0 (Nat.lt_succ_of_lt hlt) ?_ t htm
      intro t' ht'
      rcases List.mem_append.1 ht' with h1 | h1
      · exact hno t' (clearOpt_subset d.warningTimeout timers t' h1)
      · have he : t' = ⟨nid, d.id, now + 5000⟩ := List.mem_singleton.1 h1
        subst he
        show nid ≠ tid0
        omega
    | false =>
      rw [processWarn_cons_neg di ch now d rest timers nid h] at htm
      exact ih timers nid tid0 hlt hno t htm

/-- The exact effect of the warning handler on a matched session: hasWarning
is set, the session's previously pending timer (if any) is cancelled, and a
fresh timer clearing the warning 5000 ms later is scheduled. -/
theorem processWarn_matched_elem (di : String) (ch : Nat) (now : Nat) (l : List Session) :
    ∀ (timers : List Timer) (nid i : Nat) (d : Session),
      (∀ d' ∈ l, ∀ tid0, d'.warningTimeout = some tid0 → tid0 < nid) →
      l[i]? = some d →
      matchesWarning di ch d = true →
      ∃ tid, nid ≤ tid ∧
        (processWarn di ch now l timers nid).1[i]? =
          some { d with hasWarning := true, warningTimeout := some tid } ∧
        (⟨tid, d.id, now + 5000⟩ : Timer) ∈ (processWarn di ch now l timers nid).2.1 ∧
        ∀ tid0, d.warningTimeout = some tid0 →
          ∀ t ∈ (processWarn di ch now l timers nid).2.1, t.id ≠ tid0 := by
  induction l with
  | nil => intro timers nid i d _ hget _; simp at hget
  | cons d0 rest ih =>
    intro timers nid i d hbound hget hmatch
    cases i with
    | zero =>
      obtain rfl : d0 = d := by simpa using hget
      refine ⟨nid, Nat.le_refl nid, ?_, ?_, ?_⟩
      · rw [processWarn_cons_pos di ch now d0 rest timers nid hmatch]
        simp
      · rw [processWarn_cons_pos di ch now d0 rest timers nid hmatch]
        refine processWarn_timers_mem di ch now rest _ _ _ ?_ ?_
        · exact List.mem_append_right _ (List.mem_singleton.2 rfl)
        · intro d' hd' tid0 h0
          have hb := hbound d' (List.mem_cons_of_mem d0 hd') tid0 h0
          show nid ≠ tid0
          omega
      · intro tid0 h0 t htm
        have h0lt : tid0 < nid := hbound d0 (List.mem_cons_self d0 rest) tid0 h0
        rw [processWarn_cons_pos di ch now d0 rest timers nid hmatch] at htm
        refine processWarn_timers_no_id di ch now rest _ _ tid0
          (Nat.lt_succ_of_lt h0lt) ?_ t htm
        intro t' ht'
        rcases List.mem_append.1 ht' with h1 | h1
        · rw [h0] at h1
          exact clearTimeoutId_no_id tid0 timers t' h1
        · have he : t' = ⟨nid, d0.id, now + 5000⟩ := List.mem_singleton.1 h1
          subst he
          show nid ≠ tid0
          omega
    | succ j =>
      have hget' : rest[j]? = some d := by simpa using hget
      cases h0 : matchesWarning di ch d0 with
      | true =>
        have hb : ∀ d' ∈ rest, ∀ tid0, d'.warningTimeout = some tid0 → tid0 < nid + 1 :=
          fun d' hd' tid0 ht =>
            Nat.lt_succ_of_lt (hbound d' (List.mem_cons_of_mem d0 hd') tid0 ht)
        obtain ⟨tid, hle, hval, hmem, hcl⟩ :=
          ih (clearOpt d0.warningTimeout timers ++ [⟨nid, d0.id, now + 5000⟩])
            (nid + 1) j d hb hget' hmatch
        refine ⟨tid, Nat.le_of_succ_le hle, ?_, ?_, ?_⟩
        · rw [processWarn_cons_pos di ch now d0 rest timers nid h0]
          simpa using hval
        · rw [processWarn_cons_pos di ch now d0 rest timers nid h0]
          exact hmem
        · intro tid0 ht0 t htm
          rw [processWarn_cons_pos di ch now d0 rest timers nid h0] at htm
          exact hcl tid0 ht0 t htm
      | false =>
        have hb : ∀ d' ∈ rest, ∀ tid0, d'.warningTimeout = some tid0 → tid0 < nid :=
          fun d' hd' tid0 ht => hbound d' (List.mem_cons_of_mem d0 hd') tid0 ht
        obtain ⟨tid, hle, hval, hmem, hcl⟩ := ih timers nid j d hb hget' hmatch
        refine ⟨tid, hle, ?_, ?_, ?_⟩
        · rw [processWarn_cons_neg di ch now d0 rest timers nid h0]
          simpa using hval
        · rw [processWarn_cons_neg di ch now d0 rest timers nid h0]
          exact hmem
        · intro tid0 ht0 t htm
          rw [processWarn_cons_neg di ch now d0 rest timers nid h0] at htm
          exact hcl tid0 ht0 t htm

/-! ### Shared concrete fixtures for witnesses and counterexamples -/

def devA : AudioDevice := ⟨2, "Desk Mic", "dev-2", 2⟩

def devB : AudioDevice := ⟨3, "Stage Mic", "dev-3", 2⟩

def sessionA : Session :=
  ⟨"101", devA, 1, "Desk Mic", false, none, none, none, none, false, none⟩

def sessionB : Session :=
  ⟨"202", devB, 0, "Stage Mic", false, none, none, none, none, false, none⟩

def stAB : ClientState := ⟨[sessionA, sessionB], [], 1, [], [], none, none, ""⟩

/-! ### Claims about the warning handler (C1, C5, C9) -/

/-- Claim C1: for every incoming warning notification carrying a deviceIndex
and a channel, the handler sets hasWarning to true exactly on the sessions
whose stored (deviceIndex, channel) identity matches the notification, and
leaves every non-matching session's hasWarning unchanged; in particular a
fault on one (deviceIndex, channel) never sets hasWarning on a session
tracking a different identity. -/
theorem c1_warning_sets_exactly_matching (di : String) (ch : Nat) (m : Option String)
    (now : Nat) (st : ClientState) :
    (handleWarning ⟨some di, some ch, m⟩ now st).sessions.length = st.sessions.length ∧
    ∀ i : Nat,
      ((handleWarning ⟨some di, some ch, m⟩ now st).sessions[i]?).map Session.hasWarning =
        (st.sessions[i]?).map
          (fun d => if matchesWarning di ch d then true else d.hasWarning) := by
  constructor
  · simp [handleWarning, processWarn_length]
  · intro i
    simp only [handleWarning]
    exact processWarn_hasWarning di ch now st.sessions st.timers st.nextTimerId i

/-- Claim C5: a warning notification whose (deviceIndex, channel) matches no
active session is dropped: the whole client state, in particular every
session and every hasWarning flag, is left unchanged. -/
theorem c5_unmatched_warning_dropped (di : String) (ch : Nat) (m : Option String)
    (now : Nat) (st : ClientState)
    (h : ∀ d ∈ st.sessions, matchesWarning di ch d = false) :
    handleWarning ⟨some di, some ch, m⟩ now st = st := by
  have hp := processWarn_no_match di ch now st.sessions st.timers st.nextTimerId h
  simp [handleWarning, hp]

/-- Witness for C5: a fault on device 7 / channel 0 leaves a client tracking
(2, 1) and (3, 0) completely unchanged. -/
theorem c5_unmatched_warning_dropped_witness :
    handleWarning ⟨some "7", some 0, some "pop"⟩ 1000 stAB = stAB :=
  c5_unmatched_warning_dropped "7" 0 (some "pop") 1000 stAB (by decide)

/-- Claim C9: a warning payload in which deviceIndex or channel is undefined
makes the handler return early, leaving the entire client state unchanged. -/
theorem c9_malformed_warning_ignored (w : WarningData) (now : Nat) (st : ClientState)
    (h : w.deviceIndex = none ∨ w.channel = none) :
    handleWarning w now st = st := by
  cases w with
  | mk dIdx chan msg =>
    rcases h with h | h
    · simp only at h; subst h; rfl
    · simp only at h; subst h; cases dIdx <;> rfl

/-- Witness for C9: a warning with an undefined deviceIndex changes nothing. -/
theorem c9_malformed_warning_ignored_witness :
    handleWarning ⟨none, some 1, some "pop"⟩ 500 stAB = stAB :=
  c9_malformed_warning_ignored ⟨none, some 1, some "pop"⟩ 500 stAB (Or.inl rfl)

/-- Claim C2: on a matched warning the handler sets the session's hasWarning,
cancels the session's previously pending warning-clear timer (refreshing
rather than stacking), and schedules a fresh timer that will clear the
warning of that session exactly 5000 ms after the event. -/
theorem c2_warning_refreshes_timer (di : String) (ch : Nat) (m : Option String)
    (now : Nat) (st : ClientState) (i : Nat) (d : Session)
    (hwf : st.wf = true)
    (hget : st.sessions[i]? = some d)
    (hmatch : matchesWarning di ch d = true) :
    ∃ tid,
      (handleWarning ⟨some di, some ch, m⟩ now st).sessions[i]? =
        some { d with hasWarning := true, warningTimeout := some tid } ∧
      (⟨tid, d.id, now + 5000⟩ : Timer) ∈
        (handleWarning ⟨some di, some ch, m⟩ now st).timers ∧
      ∀ tid0, d.warningTimeout = some tid0 →
        ∀ t ∈ (handleWarning ⟨some di, some ch, m⟩ now st).timers, t.id ≠ tid0 := by
  have hwf' := hwf
  simp only [ClientState.wf, Bool.and_eq_true] at hwf'
  have hbound : ∀ d' ∈ st.sessions, ∀ tid0,
      d'.warningTimeout = some tid0 → tid0 < st.nextTimerId := by
    intro d' hd' tid0 ht
    have hall := List.all_eq_true.1 hwf'.2 d' hd'
    rw [ht] at hall
    simpa using hall
  obtain ⟨tid, _, hval, hmem, hcl⟩ :=
    processWarn_matched_elem di ch now st.sessions st.timers st.nextTimerId i d
      hbound hget hmatch
  refine ⟨tid, by simpa [handleWarning] using hval, by simpa [handleWarning] using hmem, ?_⟩
  intro tid0 ht0 t htm
  exact hcl tid0 ht0 t (by simpa [handleWarning] using htm)

/-- A session for device 2 / channel 1 that already carries a pending
warning-clear timer (id 3, due at 2000 ms). -/
def sessionC : Session :=
  ⟨"301", devA, 1, "Desk Mic", false, none, none, none, none, true, some 3⟩

def stC : ClientState := ⟨[sessionC], [⟨3, "301", 2000⟩], 4, [], [], none, none, ""⟩

/-- Witness for C2: a second fault on device 2 / channel 1 at t=6000 cancels
the pending timer 3 and schedules a fresh clear at t=11000. -/
theorem c2_warning_refreshes_timer_witness :
    ∃ tid,
      (handleWarning ⟨some "2", some 1, some "pop"⟩ 6000 stC).sessions[0]? =
        some { sessionC with hasWarning := true, warningTimeout := some tid } ∧
      (⟨tid, sessionC.id, 6000 + 5000⟩ : Timer) ∈
        (handleWarning ⟨some "2", some 1, some "pop"⟩ 6000 stC).timers ∧
      ∀ tid0, sessionC.warningTimeout = some tid0 →
        ∀ t ∈ (handleWarning ⟨some "2", some 1, some "pop"⟩ 6000 stC).timers,
          t.id ≠ tid0 :=
  c2_warning_refreshes_timer "2" 1 (some "pop") 6000 stC 0 sessionC
    (by decide) (by decide) (by decide)

/-! ### Lemmas about removal, teardown and stale timers -/

theorem map_clear_noop (l : List Session) (sid : String)
    (h : ∀ d ∈ l, d.id ≠ sid) :
    (l.map fun d =>
      if d.id = sid then { d with hasWarning := false, warningTimeout := none } else d) = l := by
  induction l with
  | nil => rfl
  | cons d rest ih =>
    have hd : d.id ≠ sid := h d (List.mem_cons_self d rest)
    simp [hd, ih fun d' hd' => h d' (List.mem_cons_of_mem d hd')]

theorem handleRemoveDevice_no_sid (st : ClientState) (sid : String) :
    ∀ d ∈ (handleRemoveDevice sid st).sessions, d.id ≠ sid := by
  intro d hd
  cases hf : st.sessions.find? (fun x => x.id = sid) with
  | none =>
    simp only [handleRemoveDevice, hf] at hd
    have := List.find?_eq_none.1 hf d hd
    simpa using this
  | some d0 =>
    simp only [handleRemoveDevice, hf] at hd
    have := (List.mem_filter.1 hd).2
    simpa using this

theorem foldl_cancel_subset (l : List Session) :
    ∀ (timers : List Timer) (t : Timer),
      t ∈ l.foldl cancelSessionTimer timers → t ∈ timers := by
  induction l with
  | nil => intro timers t ht; simpa using ht
  | cons d rest ih =>
    intro timers t ht
    have h1 := ih (cancelSessionTimer timers d) t (by simpa using ht)
    exact clearOpt_subset d.warningTimeout timers t (by simpa [cancelSessionTimer] using h1)

theorem foldl_cancel_no_id (l : List Session) :
    ∀ (timers : List Timer) (d : Session), d ∈ l →
      ∀ tid, d.warningTimeout = some tid →
        ∀ t ∈ l.foldl cancelSessionTimer timers, t.id ≠ tid := by
  induction l with
  | nil => intro timers d hd; simp at hd
  | cons d0 rest ih =>
    intro timers d hd tid htid t ht
    rcases List.mem_cons.1 hd with rfl | hd'
    · have ht' : t ∈ cancelSessionTimer timers d :=
        foldl_cancel_subset rest (cancelSessionTimer timers d) t (by simpa using ht)
      rw [cancelSessionTimer, htid] at ht'
      exact clearTimeoutId_no_id tid timers t ht'
    · exact ih (cancelSessionTimer timers d0) d hd' tid htid t (by simpa using ht)

/-! ### Claims about removal and teardown (C3, C8) -/

/-- A session for device 2 / channel 1 whose warning is up, with its pending
warning-clear timer (id 7, due at 9000 ms). -/
def sessionT : Session :=
  ⟨"401", devA, 1, "Desk Mic", false, none, none, none, none, true, some 7⟩

def stT : ClientState := ⟨[sessionT], [⟨7, "401", 9000⟩], 8, [], [], none, none, ""⟩

/-- Counterexample to C3 as stated: removing session 401 deletes the session
but does NOT cancel its pending warning timer — handleRemoveDevice never
touches the timers, so timer 7 is still pending after removal. -/
theorem c3_remove_keeps_timer_pending_cex :
    (handleRemoveDevice "401" stT).sessions = [] ∧
    (handleRemoveDevice "401" stT).timers = [⟨7, "401", 9000⟩] := by
  decide

/-- Claim C3 (amended): the remove-device operation does not cancel the
removed session's pending warning timer, but after removal no session with
the removed id remains, so the timer's warning-clear callback firing later
leaves the remaining session list unchanged. -/
theorem c3_removed_session_timer_noop (st : ClientState) (sid : String) (t : Timer)
    (hsid : t.sessionId = sid) :
    (handleRemoveDevice sid st).timers = st.timers ∧
    ((handleRemoveDevice sid st).sessions.all fun d => d.id ≠ sid) = true ∧
    (fireWarningClear t (handleRemoveDevice sid st)).sessions =
      (handleRemoveDevice sid st).sessions := by
  refine ⟨?_, ?_, ?_⟩
  · cases hf : st.sessions.find? (fun x => x.id = sid) with
    | none => simp [handleRemoveDevice, hf]
    | some d0 => simp [handleRemoveDevice, hf]
  · exact List.all_eq_true.2 fun d hd => by
      simpa using handleRemoveDevice_no_sid st sid d hd
  · show ((handleRemoveDevice sid st).sessions.map fun d =>
        if d.id = t.sessionId then { d with hasWarning := false, warningTimeout := none }
        else d) = (handleRemoveDevice sid st).sessions
    rw [hsid]
    exact map_clear_noop _ sid (handleRemoveDevice_no_sid st sid)

/-- Witness for the amended C3 at a concrete state: after removing session
401 its timer is untouched, no session with id 401 remains, and the timer
firing afterwards changes no session. -/
theorem c3_removed_session_timer_noop_witness :
    (handleRemoveDevice "401" stT).timers = stT.timers ∧
    ((handleRemoveDevice "401" stT).sessions.all fun d => d.id ≠ "401") = true ∧
    (fireWarningClear ⟨7, "401", 9000⟩ (handleRemoveDevice "401" stT)).sessions =
      (handleRemoveDevice "401" stT).sessions :=
  c3_removed_session_timer_noop stT "401" ⟨7, "401", 9000⟩ rfl

/-- A playing session for device 3 / channel 0 owning audio-graph handles
10..13, its warning up with pending timer 5. -/
def sessionP : Session :=
  ⟨"501", devB, 0, "Stage Mic", true, some 10, some 11, some 12, some 13, true, some 5⟩

def stP : ClientState := ⟨[sessionP], [⟨5, "501", 8000⟩], 6, [], [], none, none, ""⟩

/-- Counterexample to C8 as stated: removing the playing session 501 emits
the stop command, deletes the session and releases its audio-graph handles,
but leaves its pending warning timer in place; and teardown of the same
state releases no audio-graph handle at all. -/
theorem c8_resources_not_fully_released_cex :
    (handleRemoveDevice "501" stP).sessions = [] ∧
    (handleRemoveDevice "501" stP).emitted = [Command.stopAudio "501" 3 0] ∧
    (handleRemoveDevice "501" stP).released = [10, 11, 12, 13] ∧
    (handleRemoveDevice "501" stP).timers = [⟨5, "501", 8000⟩] ∧
    (teardown stP).released = [] := by
  decide

/-- Claim C8 (amended): on remove-device a stop command carrying the found
session's deviceIndex and channel is emitted, the session is deleted and its
audio-graph handles are released when it is listening, but its pending
warning timer is not cancelled; on teardown one stop command per session
active at that moment is emitted, every pending warning timer referenced by
a session is cancelled, and no audio-graph handle is released. -/
theorem c8_stop_and_partial_release (st : ClientState) (sid : String) (d : Session)
    (hf : st.sessions.find? (fun x => x.id = sid) = some d) (st2 : ClientState) :
    (handleRemoveDevice sid st).emitted =
      st.emitted ++ [Command.stopAudio d.id d.device.index d.channel] ∧
    (handleRemoveDevice sid st).sessions = st.sessions.filter (fun x => x.id ≠ sid) ∧
    (handleRemoveDevice sid st).released =
      st.released ++ (if d.isPlaying then releaseGraph d else []) ∧
    (handleRemoveDevice sid st).timers = st.timers ∧
    (teardown st2).emitted = st2.emitted ++
      st2.sessions.map (fun x => Command.stopAudio x.id x.device.index x.channel) ∧
    (teardown st2).sessions = [] ∧
    (teardown st2).released = st2.released ∧
    (st2.sessions.all fun x =>
      match x.warningTimeout with
      | some tid => (teardown st2).timers.all fun u => u.id ≠ tid
      | none => true) = true := by
  refine ⟨?_, ?_, ?_, ?_, rfl, rfl, rfl, ?_⟩
  · simp [handleRemoveDevice, hf]
  · simp [handleRemoveDevice, hf]
  · simp [handleRemoveDevice, hf]
  · simp [handleRemoveDevice, hf]
  · refine List.all_eq_true.2 fun x hx => ?_
    cases hwt : x.warningTimeout with
    | none => simp
    | some tid =>
      refine List.all_eq_true.2 fun u hu => ?_
      have hne := foldl_cancel_no_id st2.sessions st2.timers x hx tid hwt u
        (by simpa [teardown] using hu)
      simpa using hne

/-- Witness for the amended C8 at a concrete state: removing playing session
501 emits its stop command, deletes it, releases handles 10..13 and keeps
timer 5 pending; teardown emits one stop command, cancels timer 5 and
releases nothing. -/
theorem c8_stop_and_partial_release_witness :
    (handleRemoveDevice "501" stP).emitted =
      stP.emitted ++ [Command.stopAudio sessionP.id sessionP.device.index sessionP.channel] ∧
    (handleRemoveDevice "501" stP).sessions =
      stP.sessions.filter (fun x => x.id ≠ "501") ∧
    (handleRemoveDevice "501" stP).released =
      stP.released ++ (if sessionP.isPlaying then releaseGraph sessionP else []) ∧
    (handleRemoveDevice "501" stP).timers = stP.timers ∧
    (teardown stP).emitted = stP.emitted ++
      stP.sessions.map (fun x => Command.stopAudio x.id x.device.index x.channel) ∧
    (teardown stP).sessions = [] ∧
    (teardown stP).released = stP.released ∧
    (stP.sessions.all fun x =>
      match x.warningTimeout with
      | some tid => (teardown stP).timers.all fun u => u.id ≠ tid
      | none => true) = true :=
  c8_stop_and_partial_release stP "501" sessionP (by decide) stP

/-! ### Claim about adding a device (C7) -/

/-- Claim C7: with a device and a channel selected, handleAddDevice emits
exactly one start command carrying the device's index and the selected
channel and appends exactly one session with hasWarning = false and no
listening state (isPlaying false, all audio-graph handles null); with no
device or no channel selected it changes nothing. -/
theorem c7_add_device (gid : String) (st : ClientState) (dev : AudioDevice) (ch : Nat)
    (st2 : ClientState)
    (h1 : st.selectedDevice = some dev) (h2 : st.selectedChannel = some ch)
    (h3 : st2.selectedDevice = none ∨ st2.selectedChannel = none) :
    (handleAddDevice gid st).emitted = st.emitted ++ [Command.startAudio gid dev.index ch] ∧
    (handleAddDevice gid st).sessions = st.sessions ++ [newSession gid dev ch st.customName] ∧
    (newSession gid dev ch st.customName).hasWarning = false ∧
    (newSession gid dev ch st.customName).isPlaying = false ∧
    (newSession gid dev ch st.customName).stream = none ∧
    (newSession gid dev ch st.customName).source = none ∧
    (newSession gid dev ch st.customName).channelIsolator = none ∧
    (newSession gid dev ch st.customName).gainNode = none ∧
    (newSession gid dev ch st.customName).warningTimeout = none ∧
    (newSession gid dev ch st.customName).device = dev ∧
    (newSession gid dev ch st.customName).channel = ch ∧
    (handleAddDevice gid st).timers = st.timers ∧
    handleAddDevice gid st2 = st2 := by
  refine ⟨?_, ?_, rfl, rfl, rfl, rfl, rfl, rfl, rfl, rfl, rfl, ?_, ?_⟩
  · simp [handleAddDevice, h1, h2]
  · simp [handleAddDevice, h1, h2]
  · simp [handleAddDevice, h1, h2]
  · rcases h3 with h3 | h3
    · simp [handleAddDevice, h3]
    · cases hx : st2.selectedDevice with
      | none => simp [handleAddDevice, hx]
      | some dv => simp [handleAddDevice, hx, h3]

def stSel : ClientState := ⟨[], [], 1, [], [], some devA, some 1, ""⟩

/-- Witness for C7: with device 2 / channel 1 selected, adding emits
start_audio for (2, 1) and appends a fresh warning-free session; on a state
with nothing selected, adding changes nothing. -/
theorem c7_add_device_witness :
    (handleAddDevice "601" stSel).emitted =
      stSel.emitted ++ [Command.startAudio "601" devA.index 1] ∧
    (handleAddDevice "601" stSel).sessions =
      stSel.sessions ++ [newSession "601" devA 1 stSel.customName] ∧
    (newSession "601" devA 1 stSel.customName).hasWarning = false ∧
    (newSession "601" devA 1 stSel.customName).isPlaying = false ∧
    (newSession "601" devA 1 stSel.customName).stream = none ∧
    (newSession "601" devA 1 stSel.customName).source = none ∧
    (newSession "601" devA 1 stSel.customName).channelIsolator = none ∧
    (newSession "601" devA 1 stSel.customName).gainNode = none ∧
    (newSession "601" devA 1 stSel.customName).warningTimeout = none ∧
    (newSession "601" devA 1 stSel.customName).device = devA ∧
    (newSession "601" devA 1 stSel.customName).channel = 1 ∧
    (handleAddDevice "601" stSel).timers = stSel.timers ∧
    handleAddDevice "601" stAB = stAB :=
  c7_add_device "601" stSel devA 1 stAB rfl rfl (Or.inl rfl)

/-! ### Frame lemmas (C6) -/

/-- The update the pause branch applies to the targeted session. -/
def pauseUpd (x : Session) : Session :=
  { x with isPlaying := false, stream := none, source := none,
           channelIsolator := none, gainNode := none }

/-- The update the play branch applies to the targeted session. -/
def playUpd (s so ci g : Nat) (x : Session) : Session :=
  { x with isPlaying := true, stream := some s, source := some so,
           channelIsolator := some ci, gainNode := some g }

/-- Whatever branch handlePlayPause takes, the session list changes only by
an update, keyed on the targeted session id, that preserves every field
other than isPlaying and the audio-graph handles; timers and emitted
commands are untouched. -/
theorem handlePlayPause_frame (sid : String) (wl : Bool) (media : MediaResult)
    (st : ClientState) :
    ∃ upd : Session → Session,
      (∀ d : Session, dropListen (upd d) = dropListen d) ∧
      (handlePlayPause sid wl media st).sessions =
        (st.sessions.map fun x => if x.id = sid then upd x else x) ∧
      (handlePlayPause sid wl media st).timers = st.timers ∧
      (handlePlayPause sid wl media st).emitted = st.emitted := by
  cases hf : st.sessions.find? (fun x => x.id = sid) with
  | none =>
    refine ⟨fun x => x, fun d => rfl, ?_, ?_, ?_⟩ <;> simp [handlePlayPause, hf]
  | some d =>
    by_cases hp : d.isPlaying = true
    · refine ⟨pauseUpd, fun x => rfl, ?_, ?_, ?_⟩ <;>
        simp [handlePlayPause, pauseUpd, hf, hp]
    · cases wl with
      | false =>
        refine ⟨fun x => x, fun d => rfl, ?_, ?_, ?_⟩ <;> simp [handlePlayPause, hf, hp]
      | true =>
        cases media with
        | err =>
          refine ⟨fun x => x, fun d => rfl, ?_, ?_, ?_⟩ <;> simp [handlePlayPause, hf, hp]
        | ok s so ci g =>
          refine ⟨playUpd s so ci g, fun x => rfl, ?_, ?_, ?_⟩ <;>
            simp [handlePlayPause, playUpd, hf, hp]

theorem handleWarning_emitted (w : WarningData) (now : Nat) (st : ClientState) :
    (handleWarning w now st).emitted = st.emitted := by
  cases w with
  | mk di ch m => cases di <;> cases ch <;> rfl

theorem handleWarning_released (w : WarningData) (now : Nat) (st : ClientState) :
    (handleWarning w now st).released = st.released := by
  cases w with
  | mk di ch m => cases di <;> cases ch <;> rfl

theorem handleWarning_dropWarn (w : WarningData) (now : Nat) (st : ClientState) (i : Nat) :
    ((handleWarning w now st).sessions[i]?).map dropWarn =
      (st.sessions[i]?).map dropWarn := by
  cases w with
  | mk di ch m =>
    cases di with
    | none => rfl
    | some di' =>
      cases ch with
      | none => rfl
      | some ch' =>
        simp only [handleWarning]
        exact processWarn_dropWarn di' ch' now st.sessions st.timers st.nextTimerId i

/-- Claim C6: field-ownership frame condition.  handlePlayPause only updates
the targeted session, and only its isPlaying flag and audio-graph handles
(every session keeps its id, device, channel, customName, hasWarning and
warningTimeout), touching neither timers nor emitted commands; conversely
the warning handler preserves every session's id, device, channel,
customName, isPlaying flag and audio-graph handles, and touches neither the
emitted commands nor the released handles. -/
theorem c6_frame_playpause_warning (sid : String) (wl : Bool) (media : MediaResult)
    (st : ClientState) (w : WarningData) (now : Nat) (st2 : ClientState) :
    (∃ upd : Session → Session,
      (∀ d : Session, dropListen (upd d) = dropListen d) ∧
      (handlePlayPause sid wl media st).sessions =
        (st.sessions.map fun x => if x.id = sid then upd x else x) ∧
      (handlePlayPause sid wl media st).timers = st.timers ∧
      (handlePlayPause sid wl media st).emitted = st.emitted) ∧
    (∀ i : Nat, ((handleWarning w now st2).sessions[i]?).map dropWarn =
      (st2.sessions[i]?).map dropWarn) ∧
    (handleWarning w now st2).emitted = st2.emitted ∧
    (handleWarning w now st2).released = st2.released :=
  ⟨handlePlayPause_frame sid wl media st,
    fun i => handleWarning_dropWarn w now st2 i,
    handleWarning_emitted w now st2,
    handleWarning_released w now st2⟩

/-! ### The channel-isolator worklet (C4, C10) -/

theorem typedArraySet_full (c src : List Int) (h : c.length = src.length) :
    typedArraySet c src = some src := by
  have hd : c.drop src.length = [] := by
    rw [← h]
    exact List.drop_length c
  simp [typedArraySet, h, hd]

theorem setAll_const (chans : List (List Int)) (src : List Int)
    (h : ∀ c ∈ chans, c.length = src.length) :
    setAll chans src = some (chans.map fun _ => src) := by
  induction chans with
  | nil => rfl
  | cons c rest ih =>
    have hc := typedArraySet_full c src (h c (List.mem_cons_self c rest))
    have hr := ih fun c' hc' => h c' (List.mem_cons_of_mem c hc')
    simp [setAll, hc, hr]

/-- Claim C4: when the configured target channel is present in the delivered
input block, the channel-isolation stage writes that channel's samples to
every output channel: after processing, each output channel's buffer equals
the target input channel's buffer (the Web Audio render quantum gives all
buffers one common length). -/
theorem c4_isolator_copies_target (target : Nat) (inputs outputs : List (List (List Int)))
    (input : List (List Int)) (data : List Int) (out : List (List Int))
    (rest : List (List (List Int)))
    (hin : inputs.head? = some input)
    (hdata : input[target]? = some data)
    (hout : outputs = out :: rest)
    (hlen : ∀ c ∈ out, c.length = data.length) :
    isolatorProcess target inputs outputs = some ((out.map fun _ => data) :: rest, true) := by
  have hne : input.length ≠ 0 := by
    intro h0
    rw [List.length_eq_zero.1 h0] at hdata
    simp at hdata
  subst hout
  simp [isolatorProcess, hin, hne, hdata, setAll_const out data hlen]

/-- Witness for C4: target channel 0 of a two-channel block is copied onto
both output channels. -/
theorem c4_isolator_copies_target_witness :
    isolatorProcess 0 [[[1, 2], [3, 4]]] [[[0, 0], [9, 9]]] =
      some (([[0, 0], [9, 9]].map fun _ => [1, 2]) :: [], true) :=
  c4_isolator_copies_target 0 [[[1, 2], [3, 4]]] [[[0, 0], [9, 9]]]
    [[1, 2], [3, 4]] [1, 2] [[0, 0], [9, 9]] [] rfl rfl rfl (by decide)

/-- Claim C10: the processor keeps the node alive and is silent-on-missing:
when the configured target channel has no data in the delivered input, it
writes nothing — the outputs are returned unmodified with result true — and
on any well-formed render quantum (non-empty outputs, one common buffer
length) it returns true rather than throwing. -/
theorem c10_isolator_alive_and_skips (target : Nat)
    (inputs outputs : List (List (List Int))) (input : List (List Int))
    (L t2 : Nat) (i2 o2 : List (List (List Int)))
    (hin : inputs.head? = some input)
    (hmiss : input[target]? = none)
    (ho2 : o2 ≠ [])
    (hi2 : ∀ inp ∈ i2, ∀ c ∈ inp, c.length = L)
    (ho2len : ∀ outp ∈ o2, ∀ c ∈ outp, c.length = L) :
    isolatorProcess target inputs outputs = some (outputs, true) ∧
    ∃ o2', isolatorProcess t2 i2 o2 = some (o2', true) := by
  constructor
  · by_cases h0 : input.length = 0
    · simp [isolatorProcess, hin, h0]
    · simp [isolatorProcess, hin, h0, hmiss]
  · cases i2 with
    | nil => exact ⟨o2, by simp [isolatorProcess]⟩
    | cons inp tl =>
      have hinp : inp ∈ inp :: tl := List.mem_cons_self inp tl
      by_cases h0 : inp.length = 0
      · exact ⟨o2, by simp [isolatorProcess, h0]⟩
      · cases hd : inp[t2]? with
        | none => exact ⟨o2, by simp [isolatorProcess, h0, hd]⟩
        | some data =>
          cases o2 with
          | nil => exact absurd rfl ho2
          | cons outp rest2 =>
            have hdlen : data.length = L := hi2 inp hinp data (List.getElem?_mem hd)
            have hlen : ∀ c ∈ outp, c.length = data.length := by
              intro c hc
              rw [hdlen]
              exact ho2len outp (List.mem_cons_self outp rest2) c hc
            exact ⟨(outp.map fun _ => data) :: rest2,
              by simp [isolatorProcess, h0, hd, setAll_const outp data hlen]⟩

/-- Witness for C10: a one-channel block with target channel 2 is passed
through unmodified with result true, and a well-formed block (length-1
buffers) also yields true. -/
theorem c10_isolator_alive_and_skips_witness :
    isolatorProcess 2 [[[1, 2]]] [[[7, 7]]] = some ([[[7, 7]]], true) ∧
    ∃ o2', isolatorProcess 0 [[[5]]] [[[0]]] = some (o2', true) :=
  c10_isolator_alive_and_skips 2 [[[1, 2]]] [[[7, 7]]] [[1, 2]] 1 0 [[[5]]] [[[0]]]
    rfl rfl (by decide) (by decide) (by decide)

end RFMonitor
